import Mathlib

/-!
# templa: annotation-driven template dispatch

A shallow embedding of `templa.go` (package `templa`): the four public
generators and the dispatcher `handleGeneration` they all forward to.

Conventions of the embedding.

* A Go `map[string]string` is an association list read with `List.lookup`;
  the two-result read `v, ok := m[k]` is `AssocParams.get?`, the one-result read
  `m[k]` (zero value `""` for a missing key) is `AssocParams.index`.
* A Go result pair `([]gen.WriteDirective, error)` is a Lean pair
  `List WriteDirective × Option GoError`; a `nil` slice is `[]`, a `nil`
  error is `none`.
* The writers built through `gen.Block`, `gen.SourceTextWith`, `gen.Package`,
  `gen.Name` and `fmtwriter.New` are kept as the tree of constructor calls the
  source performs (`Writer`), the closures of the `template.FuncMap` as the
  receiver they capture (`Accessor`).
* What the source asks of its surroundings (the file system, `path/filepath`,
  `ast.WhichPackage`, the Unicode case tables) is a field of `World`.
-/

namespace Templa

/-! ## Data model -/

/-- Go `map[string]string`, as an association list (first binding of a key wins). -/
abbrev AssocParams := List (String × String)

/-- Two-result map read `v, ok := m[k]`: `some v` when `ok`, `none` otherwise. -/
def AssocParams.get? (m : AssocParams) (k : String) : Option String :=
  List.lookup k m

/-- One-result map read `m[k]`: the zero value `""` when the key is missing. -/
def AssocParams.index (m : AssocParams) (k : String) : String :=
  (List.lookup k m).getD ""

/-- Modelled from the spec: `ast.AnnotationDeclaration` of `github.com/influx6/moz/ast`
(spec section 3, Annotation): `Name`, `Params`, `Attrs`, `Arguments`, `Template`
and `Defer`. Attribute values (`interface{}` in Go) are never inspected by the
dispatcher and are kept as strings. -/
structure AnnotationDeclaration where
  Name : String
  Template : String
  Arguments : List String
  Params : AssocParams
  Attrs : List (String × String)
  Defer : Bool
deriving DecidableEq, Repr

/-- Go zero value of `ast.AnnotationDeclaration` (`var target ast.AnnotationDeclaration`). -/
def AnnotationDeclaration.zero : AnnotationDeclaration :=
  { Name := "", Template := "", Arguments := [], Params := [], Attrs := [], Defer := false }

/-- Modelled from the spec: `ast.PackageDeclaration`; the dispatcher reads only
its `FilePath` (spec section 6). -/
structure PackageDeclaration where
  FilePath : String
deriving DecidableEq, Repr

/-- Modelled from the spec: `ast.Package`, the enclosing compilation unit. The
annotations it declares are listed in enumeration order, each with its declared
kind (spec section 3). -/
structure Package where
  Name : String
  Declared : List (String × AnnotationDeclaration)
deriving DecidableEq, Repr

/-- Modelled from the spec: `Package.AnnotationsFor(kind)`, all annotations of
the given declared kind within the package, in enumeration order. -/
def Package.AnnotationsFor (pkg : Package) (kind : String) : List AnnotationDeclaration :=
  pkg.Declared.filterMap (fun d => if d.1 = kind then some d.2 else none)

/-- Modelled from the spec: `ast.StructDeclaration`, passed through untouched. -/
structure StructDeclaration where
  Ident : String
deriving DecidableEq, Repr

/-- Modelled from the spec: `ast.InterfaceDeclaration`, passed through untouched. -/
structure InterfaceDeclaration where
  Ident : String
deriving DecidableEq, Repr

/-- Modelled from the spec: `ast.TypeDeclaration`, passed through untouched. -/
structure TypeDeclaration where
  Ident : String
deriving DecidableEq, Repr

/-- The anonymous binding structs the four generators hand to the dispatcher
(`binding interface{}`), one constructor per generator. -/
inductive Binding where
  | structBinding (an : AnnotationDeclaration) (pkgDeclr : PackageDeclaration)
      (pkg : Package) (ty : StructDeclaration)
  | interfaceBinding (an : AnnotationDeclaration) (pkgDeclr : PackageDeclaration)
      (pkg : Package) (ty : InterfaceDeclaration)
  | packageBinding (an : AnnotationDeclaration) (pkgDeclr : PackageDeclaration)
      (pkg : Package)
  | typeBinding (an : AnnotationDeclaration) (ty : TypeDeclaration)
      (pkg : Package) (pkgDeclr : PackageDeclaration)
deriving DecidableEq, Repr

/-- A Go `error` value as the source builds it: `errors.New(msg)` or
`fmt.Errorf(format, err)` with the message of the wrapped error. -/
inductive GoError where
  | New (msg : String)
  | Errorf (format : String) (err : String)
deriving DecidableEq, Repr

/-- Error returned when the requesting annotation has no `id` (line 109). -/
def MissingTemplateID : GoError := GoError.New "No source id provided"

/-- Error returned when the package has no `source` annotations (line 115). -/
def NoTemplatesInPackage : GoError := GoError.New "No  found in package"

/-- Error returned when the target has neither `Template` nor `file` (line 135). -/
def NoTemplateProvided : GoError :=
  GoError.New "Expected Template from annotation or provide \x60file => \x27path_to_template\x60"

/-- Error returned when the template file cannot be read (line 143). -/
def TemplateFileMissing (err : String) : GoError :=
  GoError.Errorf "Failed to find template file: %+q" err

/-- A value of the `template.FuncMap`: the method value or closure, kept as the
annotation it is bound to. -/
inductive Accessor where
  | Param (a : AnnotationDeclaration)
  | Attr (a : AnnotationDeclaration)
  | HasArg (a : AnnotationDeclaration)
  | Defer (a : AnnotationDeclaration)
  | Template (a : AnnotationDeclaration)
  | Params (a : AnnotationDeclaration)
  | Attrs (a : AnnotationDeclaration)
  | Arguments (a : AnnotationDeclaration)
deriving DecidableEq, Repr

/-- Go `template.FuncMap`, in the order the source lists its keys. -/
abbrev FuncMap := List (String × Accessor)

/-- The content-producing handle of a directive, as the tree of calls that
builds it: `gen.SourceTextWith`, `gen.Name`, `gen.Package`, `gen.Block` and
`fmtwriter.New`. -/
inductive Writer where
  | SourceTextWith (templateData : String) (funcs : FuncMap) (binding : Binding)
  | Name (name : String)
  | Package (name : Writer) (body : Writer)
  | Block (inner : Writer)
  | Fmtwriter (inner : Writer) (useImports : Bool) (useFmt : Bool)
deriving DecidableEq, Repr

/-- Go `gen.WriteDirective`, with the three fields the source sets. -/
structure WriteDirective where
  FileName : String
  DontOverride : Bool
  Writer : Writer
deriving DecidableEq, Repr

/-- The collaborators of the dispatcher that are not part of its arguments. -/
structure World where
  /-- Go `unicode.ToLower` on runes above `unicode.MaxASCII`. -/
  unicodeToLower : Char → Char
  /-- Go `ioutil.ReadFile`: the contents, or the message of the read error. -/
  ReadFile : String → Except String String
  /-- Go `filepath.Dir`. -/
  Dir : String → String
  /-- Go `filepath.Join` of two elements. -/
  Join : String → String → String
  /-- Go `ast.WhichPackage(toDir, pkg)`. -/
  WhichPackage : String → Package → String

/-! ## Library functions -/

/-- Go `unicode.ToLower` on one rune: `A`..`Z` are shifted to `a`..`z`, other
ASCII runes are kept, the rest goes through the case tables. -/
def toLowerRune (w : World) (c : Char) : Char :=
  if c.toNat < 128 then
    if 65 ≤ c.toNat ∧ c.toNat ≤ 90 then Char.ofNat (c.toNat + 32) else c
  else w.unicodeToLower c

/-- Go `strings.ToLower`. -/
def ToLower (w : World) (s : String) : String :=
  String.mk (s.data.map (toLowerRune w))

/-! ## The dispatcher -/

/-- The search loop of lines 121-127: `for _, target = range templaters`,
leaving through `break` at the first candidate whose `Params["id"]` is the
requested id. The second argument is the current value of `target`. -/
def rangeTarget (templaterID : String) :
    AnnotationDeclaration → List AnnotationDeclaration → AnnotationDeclaration
  | target, [] => target
  | _, t :: rest =>
    if t.Params.index "id" ≠ templaterID then rangeTarget templaterID t rest else t

/-- Lines 129-149: the template text, from the `Template` field or from the file
named by the `file` parameter. Go `len` counts bytes and `String.length` counts
code points; either is zero exactly for the empty string. -/
def templateDataOf (w : World) (pkgDeclr : PackageDeclaration)
    (target : AnnotationDeclaration) : Except GoError String :=
  if target.Template.length = 0 then
    let templateFilePath := target.Params.index "file"
    let dok := (target.Params.get? "file").isSome
    if !dok && target.Template = "" then
      Except.error NoTemplateProvided
    else
      let baseDir := w.Dir pkgDeclr.FilePath
      let templateFile := w.Join baseDir templateFilePath
      match w.ReadFile templateFile with
      | Except.error err => Except.error (TemplateFileMissing err)
      | Except.ok data => Except.ok data
  else
    Except.ok target.Template

/-- Lines 155-158: the output file name. -/
def fileNameOf (w : World) (an : AnnotationDeclaration) : String :=
  match an.Params.get? "filename" with
  | some fileName => fileName
  | none => ToLower w an.Name ++ "_impl_gen.go"

/-- Lines 160-179: the function environment handed to `gen.SourceTextWith`. -/
def funcMapOf (an target : AnnotationDeclaration) : FuncMap :=
  [ ("sel", Accessor.Param an),
    ("params", Accessor.Param an),
    ("attrs", Accessor.Attr an),
    ("hasArg", Accessor.HasArg an),
    ("annotationDefer", Accessor.Defer an),
    ("annotationTemplate", Accessor.Template an),
    ("annotationParams", Accessor.Params an),
    ("annotationAttrs", Accessor.Attrs an),
    ("annotationArguments", Accessor.Arguments an),
    ("targetSel", Accessor.Param target),
    ("targetParams", Accessor.Param target),
    ("targetAttrs", Accessor.Attr target),
    ("targetHasArg", Accessor.HasArg target),
    ("targetDefer", Accessor.Defer target),
    ("targetTemplate", Accessor.Template target),
    ("targetArguments", Accessor.Arguments target),
    ("targetAnnotationParams", Accessor.Params target),
    ("targetAnnotationAttrs", Accessor.Attrs target) ]

/-- Lines 160-179: `typeGen`, the rendered block. -/
def typeGenOf (an target : AnnotationDeclaration) (templateData : String)
    (binding : Binding) : Writer :=
  Writer.Block (Writer.SourceTextWith templateData (funcMapOf an target) binding)

/-- Lines 186-191 and 213-218: the inner `switch len(an.Params["packageName"]) == 0`. -/
def packageNameOf (w : World) (toDir : String) (an target : AnnotationDeclaration)
    (pkg : Package) : String :=
  if (an.Params.index "packageName").length = 0 then
    w.WhichPackage toDir pkg
  else
    target.Params.index "packageName"

/-- Lines 181-248: the `switch genName`, appending one directive. -/
def directivesOf (w : World) (toDir : String) (an target : AnnotationDeclaration)
    (pkg : Package) (genName fileName : String) (typeGen : Writer) : List WriteDirective :=
  if genName = "partial_test.go" then
    let packageName := packageNameOf w toDir an target pkg
    let packageName := packageName ++ "_test"
    let pkgGen := Writer.Block (Writer.Package (Writer.Name packageName) typeGen)
    [] ++ [{ FileName := fileName, DontOverride := true,
             Writer := Writer.Fmtwriter pkgGen true true }]
  else if genName = "partial.go" then
    let packageName := packageNameOf w toDir an target pkg
    let pkgGen := Writer.Block (Writer.Package (Writer.Name packageName) typeGen)
    [] ++ [{ FileName := fileName, DontOverride := true,
             Writer := Writer.Fmtwriter pkgGen true true }]
  else if genName = "go" then
    [] ++ [{ FileName := fileName, DontOverride := true,
             Writer := Writer.Fmtwriter typeGen true true }]
  else
    [] ++ [{ Writer := typeGen, DontOverride := true, FileName := fileName }]

/-- Lines 129-250: everything after the search loop, for the `target` it left. -/
def generateFrom (w : World) (toDir : String) (an : AnnotationDeclaration)
    (pkgDeclr : PackageDeclaration) (pkg : Package) (binding : Binding)
    (target : AnnotationDeclaration) : List WriteDirective × Option GoError :=
  match templateDataOf w pkgDeclr target with
  | Except.error err => ([], some err)
  | Except.ok templateData =>
    let genName := ToLower w (target.Params.index "gen")
    let fileName := fileNameOf w an
    let typeGen := typeGenOf an target templateData binding
    (directivesOf w toDir an target pkg genName fileName typeGen, none)

/-- Go `handleGeneration` (lines 106-251). -/
def handleGeneration (w : World) (toDir : String) (an : AnnotationDeclaration)
    (pkgDeclr : PackageDeclaration) (pkg : Package) (binding : Binding) :
    List WriteDirective × Option GoError :=
  match an.Params.get? "id" with
  | none => ([], some MissingTemplateID)
  | some templaterID =>
    let templaters := pkg.AnnotationsFor "source"
    if templaters.length = 0 then
      ([], some NoTemplatesInPackage)
    else
      let target := rangeTarget templaterID AnnotationDeclaration.zero templaters
      generateFrom w toDir an pkgDeclr pkg binding target

/-- Go `StructGenerator` (lines 25-37). -/
def StructGenerator (w : World) (toDir : String) (an : AnnotationDeclaration)
    (ty : StructDeclaration) (pkgDeclr : PackageDeclaration) (pkg : Package) :
    List WriteDirective × Option GoError :=
  handleGeneration w toDir an pkgDeclr pkg (Binding.structBinding an pkgDeclr pkg ty)

/-- Go `InterfaceGenerator` (lines 48-60). -/
def InterfaceGenerator (w : World) (toDir : String) (an : AnnotationDeclaration)
    (ty : InterfaceDeclaration) (pkgDeclr : PackageDeclaration) (pkg : Package) :
    List WriteDirective × Option GoError :=
  handleGeneration w toDir an pkgDeclr pkg (Binding.interfaceBinding an pkgDeclr pkg ty)

/-- Go `PackageGenerator` (lines 71-81). -/
def PackageGenerator (w : World) (toDir : String) (an : AnnotationDeclaration)
    (pkgDeclr : PackageDeclaration) (pkg : Package) :
    List WriteDirective × Option GoError :=
  handleGeneration w toDir an pkgDeclr pkg (Binding.packageBinding an pkgDeclr pkg)

/-- Go `AnyTypeGenerator` (lines 92-104). -/
def AnyTypeGenerator (w : World) (toDir : String) (an : AnnotationDeclaration)
    (ty : TypeDeclaration) (pkgDeclr : PackageDeclaration) (pkg : Package) :
    List WriteDirective × Option GoError :=
  handleGeneration w toDir an pkgDeclr pkg (Binding.typeBinding an ty pkg pkgDeclr)

/-! ## Reading a writer back -/

/-- The template text a writer renders: the first argument of the
`gen.SourceTextWith` call at its core. -/
def Writer.templateText : Writer → Option String
  | Writer.SourceTextWith templateData _ _ => some templateData
  | Writer.Name _ => none
  | Writer.Package _ body => body.templateText
  | Writer.Block inner => inner.templateText
  | Writer.Fmtwriter inner _ _ => inner.templateText

/-- The name of the package declaration a writer synthesizes, if it has one. -/
def Writer.packageName : Writer → Option String
  | Writer.SourceTextWith _ _ _ => none
  | Writer.Name _ => none
  | Writer.Package (Writer.Name name) _ => some name
  | Writer.Package _ _ => none
  | Writer.Block inner => inner.packageName
  | Writer.Fmtwriter inner _ _ => inner.packageName

/-! ## Sample inputs -/

/-- A world whose file system holds the single file `pkg/tmpl.tml`. -/
def sampleWorld : World :=
  { unicodeToLower := fun c => c,
    ReadFile := fun path =>
      if path = "pkg/tmpl.tml" then Except.ok "file body"
      else Except.error ("open " ++ path ++ ": no such file or directory"),
    Dir := fun _ => "pkg",
    Join := fun a b => a ++ "/" ++ b,
    WhichPackage := fun _ pkg => pkg.Name }

/-- A requesting annotation `@MakeFor` that carries no `id`. -/
def anNoId : AnnotationDeclaration :=
  { Name := "MakeFor", Template := "", Arguments := [], Params := [("filename", "out.go")],
    Attrs := [], Defer := false }

/-- A requesting annotation `@MakeFor(id => "b")`. -/
def anB : AnnotationDeclaration :=
  { Name := "MakeFor", Template := "", Arguments := [], Params := [("id", "b")],
    Attrs := [], Defer := false }

/-- A source annotation with id `a` and inline template `alpha`. -/
def srcA : AnnotationDeclaration :=
  { Name := "source", Template := "alpha", Arguments := [], Params := [("id", "a")],
    Attrs := [], Defer := false }

/-- A source annotation with id `b`, inline template `beta` and `gen => "GO"`. -/
def srcB : AnnotationDeclaration :=
  { Name := "source", Template := "beta", Arguments := [],
    Params := [("id", "b"), ("gen", "GO")], Attrs := [], Defer := false }

/-- A second source annotation with id `b`. -/
def srcB2 : AnnotationDeclaration :=
  { Name := "source", Template := "beta two", Arguments := [], Params := [("id", "b")],
    Attrs := [], Defer := false }

/-- A package declaration living in `pkg/`. -/
def declPkg : PackageDeclaration := { FilePath := "pkg/main.go" }

/-- A package that declares no annotation at all. -/
def pkgEmpty : Package := { Name := "main", Declared := [] }

/-- A package whose only source annotation has id `a`. -/
def pkgOnlyA : Package := { Name := "main", Declared := [("source", srcA)] }

/-- A package with sources `a`, `b`, `b` in that order. -/
def pkgABB : Package :=
  { Name := "main", Declared := [("source", srcA), ("source", srcB), ("source", srcB2)] }

/-- The template text that calls `targetSel` on the key `file` (two opening
braces, `targetSel "file"`, two closing braces). -/
def tmplReadsFile : String := "\x7b\x7b targetSel \x22file\x22 \x7d\x7d"

/-- A source annotation with id `b`, the inline template `tmplReadsFile` and a
`file` parameter. -/
def srcInlineOne : AnnotationDeclaration :=
  { Name := "source", Template := tmplReadsFile, Arguments := [],
    Params := [("id", "b"), ("file", "one.tml")], Attrs := [], Defer := false }

/-- The annotation `srcInlineOne` with another value of its `file` parameter. -/
def srcInlineTwo : AnnotationDeclaration :=
  { Name := "source", Template := tmplReadsFile, Arguments := [],
    Params := [("id", "b"), ("file", "two.tml")], Attrs := [], Defer := false }

/-- A package whose only source annotation is `srcInlineOne`. -/
def pkgInlineOne : Package := { Name := "main", Declared := [("source", srcInlineOne)] }

/-- A package whose only source annotation is `srcInlineTwo`. -/
def pkgInlineTwo : Package := { Name := "main", Declared := [("source", srcInlineTwo)] }

/-- A source annotation with id `b`, no inline template and no `file`. -/
def srcBare : AnnotationDeclaration :=
  { Name := "source", Template := "", Arguments := [], Params := [("id", "b")],
    Attrs := [], Defer := false }

/-- A source annotation with id `b` whose template is the file `tmpl.tml`. -/
def srcFile : AnnotationDeclaration :=
  { Name := "source", Template := "", Arguments := [],
    Params := [("id", "b"), ("file", "tmpl.tml")], Attrs := [], Defer := false }

/-- A source annotation with id `b` whose template file does not exist. -/
def srcLost : AnnotationDeclaration :=
  { Name := "source", Template := "", Arguments := [],
    Params := [("id", "b"), ("file", "lost.tml")], Attrs := [], Defer := false }

/-- A package whose only source annotation is `srcBare`. -/
def pkgBare : Package := { Name := "main", Declared := [("source", srcBare)] }

/-- A package whose only source annotation is `srcFile`. -/
def pkgFile : Package := { Name := "main", Declared := [("source", srcFile)] }

/-- A package whose only source annotation is `srcLost`. -/
def pkgLost : Package := { Name := "main", Declared := [("source", srcLost)] }

/-- A source annotation with id `b`, inline template `beta` and `gen => "partial.go"`. -/
def srcPartial : AnnotationDeclaration :=
  { Name := "source", Template := "beta", Arguments := [],
    Params := [("id", "b"), ("gen", "partial.go")], Attrs := [], Defer := false }

/-- A source annotation with id `b`, `gen => "Partial_Test.go"` and its own
`packageName => "srcpkg"`. -/
def srcPartialTest : AnnotationDeclaration :=
  { Name := "source", Template := "beta", Arguments := [],
    Params := [("id", "b"), ("gen", "Partial_Test.go"), ("packageName", "srcpkg")],
    Attrs := [], Defer := false }

/-- A package whose only source annotation is `srcB` (`gen => "GO"`). -/
def pkgGo : Package := { Name := "main", Declared := [("source", srcB)] }

/-- A package whose only source annotation is `srcPartial`. -/
def pkgPartial : Package := { Name := "main", Declared := [("source", srcPartial)] }

/-- A package whose only source annotation is `srcPartialTest`. -/
def pkgPartialTest : Package := { Name := "main", Declared := [("source", srcPartialTest)] }

/-- A requesting annotation with `packageName => "custom"`. -/
def anPkgCustom : AnnotationDeclaration :=
  { Name := "MakeFor", Template := "", Arguments := [],
    Params := [("id", "b"), ("packageName", "custom")], Attrs := [], Defer := false }

/-- A requesting annotation whose `id` is present and empty. -/
def anBlankId : AnnotationDeclaration :=
  { Name := "MakeFor", Template := "", Arguments := [], Params := [("id", "")],
    Attrs := [], Defer := false }

/-- A source annotation without any parameter, with inline template `gamma`. -/
def srcNoId : AnnotationDeclaration :=
  { Name := "source", Template := "gamma", Arguments := [], Params := [],
    Attrs := [], Defer := false }

/-- A package whose only source annotation is `srcNoId`. -/
def pkgNoId : Package := { Name := "main", Declared := [("source", srcNoId)] }

/-! ## Auxiliary lemmas -/

theorem length_eq_zero_iff (s : String) : s.length = 0 ↔ s = "" := by
  cases s with
  | mk data =>
    cases data with
    | nil => simp [String.length]
    | cons c cs =>
      simp only [String.length, List.length_cons]
      constructor
      · intro h; omega
      · intro h; exact absurd (congrArg String.data h) (by simp)

theorem index_of_get?_none (m : AssocParams) (k : String) (h : m.get? k = none) :
    m.index k = "" := by
  unfold AssocParams.get? at h
  simp [AssocParams.index, h]

theorem index_of_get?_some (m : AssocParams) (k v : String) (h : m.get? k = some v) :
    m.index k = v := by
  unfold AssocParams.get? at h
  simp [AssocParams.index, h]

theorem rangeTarget_first (templaterID : String) (pre : List AnnotationDeclaration) :
    ∀ (init t : AnnotationDeclaration) (post : List AnnotationDeclaration),
      (∀ p ∈ pre, p.Params.index "id" ≠ templaterID) →
      t.Params.index "id" = templaterID →
      rangeTarget templaterID init (pre ++ t :: post) = t := by
  induction pre with
  | nil =>
    intro init t post _ ht
    simp [rangeTarget, ht]
  | cons p pre ih =>
    intro init t post hpre ht
    have hp : p.Params.index "id" ≠ templaterID := hpre p (List.mem_cons_self _ _)
    have hrest : ∀ q ∈ pre, q.Params.index "id" ≠ templaterID :=
      fun q hq => hpre q (List.mem_cons_of_mem _ hq)
    simp only [List.cons_append, rangeTarget, hp, ne_eq, not_false_eq_true, if_true]
    exact ih p t post hrest ht

theorem rangeTarget_no_match (templaterID : String) (templaters : List AnnotationDeclaration) :
    ∀ (init : AnnotationDeclaration) (hne : templaters ≠ []),
      (∀ t ∈ templaters, t.Params.index "id" ≠ templaterID) →
      rangeTarget templaterID init templaters = templaters.getLast hne := by
  induction templaters with
  | nil => intro _ hne; exact absurd rfl hne
  | cons t rest ih =>
    intro init hne hall
    have ht : t.Params.index "id" ≠ templaterID := hall t (List.mem_cons_self _ _)
    have hrest : ∀ q ∈ rest, q.Params.index "id" ≠ templaterID :=
      fun q hq => hall q (List.mem_cons_of_mem _ hq)
    simp only [rangeTarget, ht, ne_eq, not_false_eq_true, if_true]
    by_cases hr : rest = []
    · subst hr
      simp [rangeTarget]
    · rw [ih t hr hrest, List.getLast_cons hr]

theorem handleGeneration_of_id (w : World) (toDir : String) (an : AnnotationDeclaration)
    (pkgDeclr : PackageDeclaration) (pkg : Package) (binding : Binding) (templaterID : String)
    (hid : an.Params.get? "id" = some templaterID)
    (hne : pkg.AnnotationsFor "source" ≠ []) :
    handleGeneration w toDir an pkgDeclr pkg binding =
      generateFrom w toDir an pkgDeclr pkg binding
        (rangeTarget templaterID AnnotationDeclaration.zero (pkg.AnnotationsFor "source")) := by
  unfold handleGeneration
  rw [hid]
  simp [hne]

/-- The writer of the single directive, by generator kind (lines 181-248). -/
theorem directivesOf_eq (w : World) (toDir : String) (an target : AnnotationDeclaration)
    (pkg : Package) (genName fileName : String) (typeGen : Writer) :
    directivesOf w toDir an target pkg genName fileName typeGen =
      [{ FileName := fileName, DontOverride := true,
         Writer :=
          if genName = "partial_test.go" then
            Writer.Fmtwriter (Writer.Block (Writer.Package
              (Writer.Name (packageNameOf w toDir an target pkg ++ "_test")) typeGen)) true true
          else if genName = "partial.go" then
            Writer.Fmtwriter (Writer.Block (Writer.Package
              (Writer.Name (packageNameOf w toDir an target pkg)) typeGen)) true true
          else if genName = "go" then Writer.Fmtwriter typeGen true true
          else typeGen }] := by
  unfold directivesOf
  split_ifs <;> rfl

theorem generateFrom_ok (w : World) (toDir : String) (an : AnnotationDeclaration)
    (pkgDeclr : PackageDeclaration) (pkg : Package) (binding : Binding)
    (target : AnnotationDeclaration) (templateData : String)
    (hres : templateDataOf w pkgDeclr target = Except.ok templateData) :
    generateFrom w toDir an pkgDeclr pkg binding target =
      (directivesOf w toDir an target pkg (ToLower w (target.Params.index "gen"))
        (fileNameOf w an) (typeGenOf an target templateData binding), none) := by
  unfold generateFrom
  rw [hres]

theorem generateFrom_error (w : World) (toDir : String) (an : AnnotationDeclaration)
    (pkgDeclr : PackageDeclaration) (pkg : Package) (binding : Binding)
    (target : AnnotationDeclaration) (err : GoError)
    (hres : templateDataOf w pkgDeclr target = Except.error err) :
    generateFrom w toDir an pkgDeclr pkg binding target = ([], some err) := by
  unfold generateFrom
  rw [hres]

theorem templateDataOf_inline (w : World) (pkgDeclr : PackageDeclaration)
    (target : AnnotationDeclaration) (hT : target.Template ≠ "") :
    templateDataOf w pkgDeclr target = Except.ok target.Template := by
  have hlen : ¬ target.Template.length = 0 := fun h => hT ((length_eq_zero_iff _).1 h)
  simp [templateDataOf, hlen]

theorem templateDataOf_no_file (w : World) (pkgDeclr : PackageDeclaration)
    (target : AnnotationDeclaration) (hT : target.Template = "")
    (hfile : target.Params.get? "file" = none) :
    templateDataOf w pkgDeclr target = Except.error NoTemplateProvided := by
  simp [templateDataOf, hT, hfile]

theorem templateDataOf_file (w : World) (pkgDeclr : PackageDeclaration)
    (target : AnnotationDeclaration) (file : String) (hT : target.Template = "")
    (hfile : target.Params.get? "file" = some file) :
    templateDataOf w pkgDeclr target =
      match w.ReadFile (w.Join (w.Dir pkgDeclr.FilePath) file) with
      | Except.error err => Except.error (TemplateFileMissing err)
      | Except.ok data => Except.ok data := by
  simp [templateDataOf, hT, hfile, index_of_get?_some _ _ _ hfile]

theorem templateText_directivesOf (w : World) (toDir : String)
    (an target : AnnotationDeclaration) (pkg : Package) (genName fileName : String)
    (templateData : String) (binding : Binding) :
    ∃ d, directivesOf w toDir an target pkg genName fileName
          (typeGenOf an target templateData binding) = [d] ∧
      d.Writer.templateText = some templateData := by
  refine ⟨_, directivesOf_eq _ _ _ _ _ _ _ _, ?_⟩
  simp only
  split_ifs <;> simp [Writer.templateText, typeGenOf]

/-- A call that reports no error went through every step: the id was present,
the package had sources, the template text was resolved and the directives are
those of the `switch genName`. -/
theorem handleGeneration_success (w : World) (toDir : String) (an : AnnotationDeclaration)
    (pkgDeclr : PackageDeclaration) (pkg : Package) (binding : Binding)
    (ds : List WriteDirective)
    (hok : handleGeneration w toDir an pkgDeclr pkg binding = (ds, none)) :
    ∃ templaterID templateData,
      an.Params.get? "id" = some templaterID ∧
      pkg.AnnotationsFor "source" ≠ [] ∧
      templateDataOf w pkgDeclr
        (rangeTarget templaterID AnnotationDeclaration.zero (pkg.AnnotationsFor "source")) =
          Except.ok templateData ∧
      ds = directivesOf w toDir an
        (rangeTarget templaterID AnnotationDeclaration.zero (pkg.AnnotationsFor "source")) pkg
        (ToLower w ((rangeTarget templaterID AnnotationDeclaration.zero
          (pkg.AnnotationsFor "source")).Params.index "gen"))
        (fileNameOf w an)
        (typeGenOf an
          (rangeTarget templaterID AnnotationDeclaration.zero (pkg.AnnotationsFor "source"))
          templateData binding) := by
  cases hid : an.Params.get? "id" with
  | none =>
    simp [handleGeneration, hid] at hok
  | some templaterID =>
    by_cases hne : pkg.AnnotationsFor "source" = []
    · simp [handleGeneration, hid, hne] at hok
    · rw [handleGeneration_of_id w toDir an pkgDeclr pkg binding templaterID hid hne] at hok
      cases hres : templateDataOf w pkgDeclr
          (rangeTarget templaterID AnnotationDeclaration.zero (pkg.AnnotationsFor "source")) with
      | error err =>
        rw [generateFrom_error w toDir an pkgDeclr pkg binding _ err hres] at hok
        simp at hok
      | ok templateData =>
        rw [generateFrom_ok w toDir an pkgDeclr pkg binding _ templateData hres] at hok
        exact ⟨templaterID, templateData, rfl, hne, hres, (congrArg Prod.fst hok).symm⟩

theorem ToLower_GO (w : World) : ToLower w "GO" = "go" := rfl

theorem ToLower_empty (w : World) : ToLower w "" = "" := rfl

theorem ToLower_MakeFor (w : World) : ToLower w "MakeFor" = "makefor" := rfl

/-! ## Claims -/

/-- C1: a requesting annotation without an `id` parameter makes `handleGeneration`,
and with it each of the four generators, return the `MissingTemplateID` error
(`No source id provided`) and no directives, for every package, output
directory, binding and file-system state. -/
theorem C1_missing_id (w : World) (toDir : String) (an : AnnotationDeclaration)
    (pkgDeclr : PackageDeclaration) (pkg : Package) (binding : Binding)
    (sty : StructDeclaration) (ity : InterfaceDeclaration) (tty : TypeDeclaration)
    (hid : an.Params.get? "id" = none) :
    handleGeneration w toDir an pkgDeclr pkg binding = ([], some MissingTemplateID) ∧
    StructGenerator w toDir an sty pkgDeclr pkg = ([], some MissingTemplateID) ∧
    InterfaceGenerator w toDir an ity pkgDeclr pkg = ([], some MissingTemplateID) ∧
    PackageGenerator w toDir an pkgDeclr pkg = ([], some MissingTemplateID) ∧
    AnyTypeGenerator w toDir an tty pkgDeclr pkg = ([], some MissingTemplateID) ∧
    MissingTemplateID = GoError.New "No source id provided" := by
  simp [StructGenerator, InterfaceGenerator, PackageGenerator, AnyTypeGenerator,
    handleGeneration, hid, MissingTemplateID]

/-- Witness of C1: the annotation `anNoId` against the package without any source. -/
theorem C1_missing_id_witness :
    anNoId.Params.get? "id" = none ∧ pkgEmpty.AnnotationsFor "source" = [] ∧
    handleGeneration sampleWorld "out" anNoId declPkg pkgEmpty
      (Binding.packageBinding anNoId declPkg pkgEmpty) = ([], some MissingTemplateID) :=
  ⟨by decide, by decide,
   (C1_missing_id sampleWorld "out" anNoId declPkg pkgEmpty
      (Binding.packageBinding anNoId declPkg pkgEmpty)
      ⟨"S"⟩ ⟨"I"⟩ ⟨"T"⟩ (by decide)).1⟩

/-- C2: with an `id` on the requesting annotation and a package whose
`AnnotationsFor("source")` is empty, `handleGeneration` returns the
`NoTemplatesInPackage` error and no directives, whatever the world (file system
included) it runs in. -/
theorem C2_no_templates (toDir : String) (an : AnnotationDeclaration)
    (pkgDeclr : PackageDeclaration) (pkg : Package) (binding : Binding) (templaterID : String)
    (hid : an.Params.get? "id" = some templaterID)
    (hsrc : pkg.AnnotationsFor "source" = []) :
    ∀ w : World,
      handleGeneration w toDir an pkgDeclr pkg binding = ([], some NoTemplatesInPackage) := by
  intro w
  simp [handleGeneration, hid, hsrc]

/-- Witness of C2: the annotation `anB` against the package without any source. -/
theorem C2_no_templates_witness :
    anB.Params.get? "id" = some "b" ∧ pkgEmpty.AnnotationsFor "source" = [] ∧
    handleGeneration sampleWorld "out" anB declPkg pkgEmpty
      (Binding.packageBinding anB declPkg pkgEmpty) = ([], some NoTemplatesInPackage) :=
  ⟨by decide, by decide,
   C2_no_templates "out" anB declPkg pkgEmpty (Binding.packageBinding anB declPkg pkgEmpty)
     "b" (by decide) (by decide) sampleWorld⟩

/-- C3: over a non-empty list of source annotations the search loop of
`handleGeneration` leaves in `target` the first annotation, in enumeration order,
whose `Params["id"]` is the requested id (whatever follows it, other matches
included), and the last annotation of the list when none matches; that `target`
is the annotation the rest of `handleGeneration` works from. -/
theorem C3_selection (templaters : List AnnotationDeclaration) (templaterID : String)
    (hne : templaters ≠ []) :
    (∀ (pre post : List AnnotationDeclaration) (t : AnnotationDeclaration),
        templaters = pre ++ t :: post →
        (∀ p ∈ pre, p.Params.index "id" ≠ templaterID) →
        t.Params.index "id" = templaterID →
        rangeTarget templaterID AnnotationDeclaration.zero templaters = t) ∧
    ((∀ t ∈ templaters, t.Params.index "id" ≠ templaterID) →
        rangeTarget templaterID AnnotationDeclaration.zero templaters =
          templaters.getLast hne) ∧
    (∀ (w : World) (toDir : String) (an : AnnotationDeclaration)
        (pkgDeclr : PackageDeclaration) (pkg : Package) (binding : Binding),
        an.Params.get? "id" = some templaterID →
        pkg.AnnotationsFor "source" = templaters →
        handleGeneration w toDir an pkgDeclr pkg binding =
          generateFrom w toDir an pkgDeclr pkg binding
            (rangeTarget templaterID AnnotationDeclaration.zero templaters)) := by
  refine ⟨?_, ?_, ?_⟩
  · intro pre post t hsplit hpre ht
    rw [hsplit]
    exact rangeTarget_first templaterID pre AnnotationDeclaration.zero t post hpre ht
  · intro hall
    exact rangeTarget_no_match templaterID templaters AnnotationDeclaration.zero hne hall
  · intro w toDir an pkgDeclr pkg binding hid hsrc
    subst hsrc
    exact handleGeneration_of_id w toDir an pkgDeclr pkg binding templaterID hid hne

/-- Witness of C3: among the sources `a`, `b`, `b` the id `b` selects the first
`b`, and the id `z`, which none carries, selects the last annotation. -/
theorem C3_selection_witness :
    [srcA, srcB, srcB2] ≠ [] ∧
    rangeTarget "b" AnnotationDeclaration.zero [srcA, srcB, srcB2] = srcB ∧
    rangeTarget "z" AnnotationDeclaration.zero [srcA, srcB, srcB2] = srcB2 :=
  ⟨by decide,
   (C3_selection [srcA, srcB, srcB2] "b" (by decide)).1 [srcA] [srcB2] srcB rfl
     (by decide) (by decide),
   (C3_selection [srcA, srcB, srcB2] "z" (by decide)).2.1 (by decide)⟩

/-- C4 (the code at its failing input): the request asks for id `b`, the package
has a single source annotation of id `a`; `handleGeneration` reports no error
and returns a directive rendering the template of the non-matching annotation. -/
theorem C4_no_match_still_generates :
    anB.Params.get? "id" = some "b" ∧
    pkgOnlyA.AnnotationsFor "source" = [srcA] ∧
    (∀ t ∈ pkgOnlyA.AnnotationsFor "source", t.Params.index "id" ≠ "b") ∧
    handleGeneration sampleWorld "out" anB declPkg pkgOnlyA
        (Binding.packageBinding anB declPkg pkgOnlyA) =
      ([{ FileName := "makefor_impl_gen.go", DontOverride := true,
          Writer := Writer.Block (Writer.SourceTextWith "alpha" (funcMapOf anB srcA)
            (Binding.packageBinding anB declPkg pkgOnlyA)) }], none) := by
  decide

/-- C5 (counterexample): two packages whose single source annotation has the same
non-empty inline `Template` and differs in nothing but the value of its `file`
parameter give different results, because the function environment of the
returned writer (`targetSel`, `targetParams`, `targetAnnotationParams`, ...) is
bound to the matched annotation, `file` parameter included. The inline template
here calls `targetSel` on `file`, so the two writers render `one.tml` and
`two.tml`. -/
theorem C5_file_param_reaches_result :
    srcInlineOne.Template ≠ "" ∧
    srcInlineOne.Template = srcInlineTwo.Template ∧
    srcInlineTwo = { srcInlineOne with Params := [("id", "b"), ("file", "two.tml")] } ∧
    handleGeneration sampleWorld "out" anB declPkg pkgInlineOne
        (Binding.packageBinding anB declPkg pkgEmpty) ≠
      handleGeneration sampleWorld "out" anB declPkg pkgInlineTwo
        (Binding.packageBinding anB declPkg pkgEmpty) := by
  decide

/-- C5 (amended): when the selected template annotation has a non-empty `Template`
field, the call returns no error and one directive whose rendered template text
is exactly that `Template` string; the result is the same for every file-system
state (`ReadFile` is never consulted), and the template text resolved is that
`Template` string whatever the parameters of the annotation, `file` included. -/
theorem C5_inline_template (w : World) (toDir : String) (an : AnnotationDeclaration)
    (pkgDeclr : PackageDeclaration) (pkg : Package) (binding : Binding) (templaterID : String)
    (target : AnnotationDeclaration)
    (hid : an.Params.get? "id" = some templaterID)
    (hne : pkg.AnnotationsFor "source" ≠ [])
    (hsel : rangeTarget templaterID AnnotationDeclaration.zero
              (pkg.AnnotationsFor "source") = target)
    (hT : target.Template ≠ "") :
    (∃ d, handleGeneration w toDir an pkgDeclr pkg binding = ([d], none) ∧
        d.Writer.templateText = some target.Template) ∧
    (∀ fs : String → Except String String,
        handleGeneration { w with ReadFile := fs } toDir an pkgDeclr pkg binding =
          handleGeneration w toDir an pkgDeclr pkg binding) ∧
    (∀ ps : AssocParams,
        templateDataOf w pkgDeclr { target with Params := ps } =
          Except.ok target.Template) := by
  refine ⟨?_, ?_, ?_⟩
  · rw [handleGeneration_of_id w toDir an pkgDeclr pkg binding templaterID hid hne, hsel,
      generateFrom_ok w toDir an pkgDeclr pkg binding target target.Template
        (templateDataOf_inline w pkgDeclr target hT)]
    obtain ⟨d, hd, htext⟩ := templateText_directivesOf w toDir an target pkg
      (ToLower w (target.Params.index "gen")) (fileNameOf w an) target.Template binding
    exact ⟨d, by rw [hd], htext⟩
  · intro fs
    rw [handleGeneration_of_id w toDir an pkgDeclr pkg binding templaterID hid hne,
      handleGeneration_of_id _ toDir an pkgDeclr pkg binding templaterID hid hne, hsel,
      generateFrom_ok w toDir an pkgDeclr pkg binding target target.Template
        (templateDataOf_inline w pkgDeclr target hT),
      generateFrom_ok _ toDir an pkgDeclr pkg binding target target.Template
        (templateDataOf_inline _ pkgDeclr target hT)]
    rfl
  · intro ps
    exact templateDataOf_inline w pkgDeclr { target with Params := ps } hT

/-- Witness of C5 (amended): the source `srcInlineOne`, whose `file` parameter
names a file that does not exist, still renders its inline template. -/
theorem C5_inline_template_witness :
    srcInlineOne.Template ≠ "" ∧
    ∃ d, handleGeneration sampleWorld "out" anB declPkg pkgInlineOne
          (Binding.packageBinding anB declPkg pkgInlineOne) = ([d], none) ∧
      d.Writer.templateText = some tmplReadsFile :=
  ⟨by decide,
   (C5_inline_template sampleWorld "out" anB declPkg pkgInlineOne
      (Binding.packageBinding anB declPkg pkgInlineOne) "b" srcInlineOne
      (by decide) (by decide) (by decide) (by decide)).1⟩

/-- C6: when the selected template annotation has an empty `Template` field, (a) a
missing `file` parameter gives the `NoTemplateProvided` error and no directives;
(b) a `file` parameter whose path `Join(Dir(pkgDeclr.FilePath), file)` cannot be
read gives the `TemplateFileMissing` error built from the read error and no
directives; (c) a successful read gives one directive whose rendered template
text is exactly the contents of that file. -/
theorem C6_template_file (w : World) (toDir : String) (an : AnnotationDeclaration)
    (pkgDeclr : PackageDeclaration) (pkg : Package) (binding : Binding) (templaterID : String)
    (target : AnnotationDeclaration)
    (hid : an.Params.get? "id" = some templaterID)
    (hne : pkg.AnnotationsFor "source" ≠ [])
    (hsel : rangeTarget templaterID AnnotationDeclaration.zero
              (pkg.AnnotationsFor "source") = target)
    (hT : target.Template = "") :
    (target.Params.get? "file" = none →
        handleGeneration w toDir an pkgDeclr pkg binding = ([], some NoTemplateProvided)) ∧
    (∀ file err : String, target.Params.get? "file" = some file →
        w.ReadFile (w.Join (w.Dir pkgDeclr.FilePath) file) = Except.error err →
        handleGeneration w toDir an pkgDeclr pkg binding =
          ([], some (GoError.Errorf "Failed to find template file: %+q" err))) ∧
    (∀ file data : String, target.Params.get? "file" = some file →
        w.ReadFile (w.Join (w.Dir pkgDeclr.FilePath) file) = Except.ok data →
        ∃ d, handleGeneration w toDir an pkgDeclr pkg binding = ([d], none) ∧
          d.Writer.templateText = some data) := by
  rw [handleGeneration_of_id w toDir an pkgDeclr pkg binding templaterID hid hne, hsel]
  refine ⟨?_, ?_, ?_⟩
  · intro hfile
    exact generateFrom_error w toDir an pkgDeclr pkg binding target _
      (templateDataOf_no_file w pkgDeclr target hT hfile)
  · intro file err hfile hread
    apply generateFrom_error
    rw [templateDataOf_file w pkgDeclr target file hT hfile, hread]
    rfl
  · intro file data hfile hread
    have hres : templateDataOf w pkgDeclr target = Except.ok data := by
      rw [templateDataOf_file w pkgDeclr target file hT hfile, hread]
    rw [generateFrom_ok w toDir an pkgDeclr pkg binding target data hres]
    obtain ⟨d, hd, htext⟩ := templateText_directivesOf w toDir an target pkg
      (ToLower w (target.Params.index "gen")) (fileNameOf w an) data binding
    exact ⟨d, by rw [hd], htext⟩

/-- Witness of C6: the three outcomes on `srcBare` (no `file`), `srcLost` (a file
that cannot be read) and `srcFile` (the file `pkg/tmpl.tml`). -/
theorem C6_template_file_witness :
    handleGeneration sampleWorld "out" anB declPkg pkgBare
        (Binding.packageBinding anB declPkg pkgBare) = ([], some NoTemplateProvided) ∧
    handleGeneration sampleWorld "out" anB declPkg pkgLost
        (Binding.packageBinding anB declPkg pkgLost) =
      ([], some (GoError.Errorf "Failed to find template file: %+q"
        "open pkg/lost.tml: no such file or directory")) ∧
    ∃ d, handleGeneration sampleWorld "out" anB declPkg pkgFile
          (Binding.packageBinding anB declPkg pkgFile) = ([d], none) ∧
      d.Writer.templateText = some "file body" :=
  ⟨(C6_template_file sampleWorld "out" anB declPkg pkgBare
      (Binding.packageBinding anB declPkg pkgBare) "b" srcBare
      (by decide) (by decide) (by decide) (by decide)).1 (by decide),
   (C6_template_file sampleWorld "out" anB declPkg pkgLost
      (Binding.packageBinding anB declPkg pkgLost) "b" srcLost
      (by decide) (by decide) (by decide) (by decide)).2.1 "lost.tml"
      "open pkg/lost.tml: no such file or directory" (by decide) rfl,
   (C6_template_file sampleWorld "out" anB declPkg pkgFile
      (Binding.packageBinding anB declPkg pkgFile) "b" srcFile
      (by decide) (by decide) (by decide) (by decide)).2.2 "tmpl.tml" "file body"
      (by decide) rfl⟩

/-- C7: in every successful call (whatever the binding, hence whatever generator
made the call, and whatever the generator kind) the single directive returned is
named by the requesting annotation alone: `Params["filename"]` when that key is
present, `lowercase(Name) ++ "_impl_gen.go"` otherwise, which for the name
`MakeFor` is `makefor_impl_gen.go`; the matched template annotation does not
occur in the name. -/
theorem C7_file_name (w : World) (toDir : String) (an : AnnotationDeclaration)
    (pkgDeclr : PackageDeclaration) (pkg : Package) (binding : Binding)
    (ds : List WriteDirective)
    (hok : handleGeneration w toDir an pkgDeclr pkg binding = (ds, none)) :
    ∃ d, ds = [d] ∧
      (∀ fileName, an.Params.get? "filename" = some fileName → d.FileName = fileName) ∧
      (an.Params.get? "filename" = none →
        d.FileName = ToLower w an.Name ++ "_impl_gen.go") ∧
      (an.Params.get? "filename" = none → an.Name = "MakeFor" →
        d.FileName = "makefor_impl_gen.go") := by
  obtain ⟨templaterID, templateData, _, _, _, hds⟩ :=
    handleGeneration_success w toDir an pkgDeclr pkg binding ds hok
  rw [directivesOf_eq] at hds
  refine ⟨_, hds, ?_, ?_, ?_⟩
  · intro fileName hfn
    simp [fileNameOf, hfn]
  · intro hfn
    simp [fileNameOf, hfn]
  · intro hfn hname
    simp [fileNameOf, hfn, hname, ToLower_MakeFor]

/-- Witness of C7: the annotation `@MakeFor(id => "b")`, which has no `filename`,
against the package with sources `a`, `b`, `b`. -/
theorem C7_file_name_witness :
    ∃ d, (handleGeneration sampleWorld "out" anB declPkg pkgABB
          (Binding.packageBinding anB declPkg pkgABB)).1 = [d] ∧
      d.FileName = "makefor_impl_gen.go" :=
  (C7_file_name sampleWorld "out" anB declPkg pkgABB
      (Binding.packageBinding anB declPkg pkgABB) _ (by decide)).imp
    (fun _ h => ⟨h.1, h.2.2.2 (by decide) (by decide)⟩)

/-- C8: every call that passes template resolution returns no error and exactly
one directive, with `DontOverride = true`, whose writer is fixed by
`lowercase(target.Params["gen"])`: for `partial.go` and `partial_test.go` the
rendered block wrapped in a package declaration and handed to the formatter, for
`go` the rendered block handed to the formatter, for anything else (a missing or
empty `gen` included) the rendered block itself; `GO` behaves as `go`. -/
theorem C8_generator_kind (w : World) (toDir : String) (an : AnnotationDeclaration)
    (pkgDeclr : PackageDeclaration) (pkg : Package) (binding : Binding)
    (templaterID templateData : String) (target : AnnotationDeclaration)
    (hid : an.Params.get? "id" = some templaterID)
    (hne : pkg.AnnotationsFor "source" ≠ [])
    (hsel : rangeTarget templaterID AnnotationDeclaration.zero
              (pkg.AnnotationsFor "source") = target)
    (hres : templateDataOf w pkgDeclr target = Except.ok templateData) :
    ∃ d, handleGeneration w toDir an pkgDeclr pkg binding = ([d], none) ∧
      d.DontOverride = true ∧
      ((ToLower w (target.Params.index "gen") = "partial.go" ∨
          ToLower w (target.Params.index "gen") = "partial_test.go") →
        ∃ name, d.Writer = Writer.Fmtwriter (Writer.Block (Writer.Package (Writer.Name name)
          (Writer.Block (Writer.SourceTextWith templateData (funcMapOf an target) binding))))
          true true) ∧
      (ToLower w (target.Params.index "gen") = "go" →
        d.Writer = Writer.Fmtwriter
          (Writer.Block (Writer.SourceTextWith templateData (funcMapOf an target) binding))
          true true) ∧
      (ToLower w (target.Params.index "gen") ≠ "partial.go" →
        ToLower w (target.Params.index "gen") ≠ "partial_test.go" →
        ToLower w (target.Params.index "gen") ≠ "go" →
        d.Writer =
          Writer.Block (Writer.SourceTextWith templateData (funcMapOf an target) binding)) ∧
      ((target.Params.get? "gen" = none ∨ target.Params.get? "gen" = some "") →
        d.Writer =
          Writer.Block (Writer.SourceTextWith templateData (funcMapOf an target) binding)) ∧
      (target.Params.get? "gen" = some "GO" →
        d.Writer = Writer.Fmtwriter
          (Writer.Block (Writer.SourceTextWith templateData (funcMapOf an target) binding))
          true true) := by
  rw [handleGeneration_of_id w toDir an pkgDeclr pkg binding templaterID hid hne, hsel,
    generateFrom_ok w toDir an pkgDeclr pkg binding target templateData hres, directivesOf_eq]
  refine ⟨_, rfl, rfl, ?_, ?_, ?_, ?_, ?_⟩
  · rintro (h | h)
    · exact ⟨packageNameOf w toDir an target pkg, by simp [h, typeGenOf]⟩
    · exact ⟨packageNameOf w toDir an target pkg ++ "_test", by simp [h, typeGenOf]⟩
  · intro h
    simp [h, typeGenOf]
  · intro h1 h2 h3
    simp [h1, h2, h3, typeGenOf]
  · intro h
    have hidx : target.Params.index "gen" = "" := by
      rcases h with h | h
      · exact index_of_get?_none _ _ h
      · exact index_of_get?_some _ _ _ h
    simp [hidx, ToLower_empty, typeGenOf]
  · intro h
    simp [index_of_get?_some _ _ _ h, ToLower_GO, typeGenOf]

/-- Witness of C8: the source `srcB`, whose `gen` is `GO`, gives one protected
directive holding the formatted rendered block. -/
theorem C8_generator_kind_witness :
    ∃ d, handleGeneration sampleWorld "out" anB declPkg pkgGo
          (Binding.packageBinding anB declPkg pkgGo) = ([d], none) ∧
      d.DontOverride = true ∧
      d.Writer = Writer.Fmtwriter
        (Writer.Block (Writer.SourceTextWith "beta" (funcMapOf anB srcB)
          (Binding.packageBinding anB declPkg pkgGo))) true true :=
  (C8_generator_kind sampleWorld "out" anB declPkg pkgGo
      (Binding.packageBinding anB declPkg pkgGo) "b" "beta" srcB
      (by decide) (by decide) (by decide) rfl).imp
    (fun _ h => ⟨h.1, h.2.1, h.2.2.2.2.2.2 (by decide)⟩)

/-- C9 (the code at its failing input): the request carries
`packageName => "custom"`. Against a `partial.go` source without `packageName`
the synthesized package declaration gets the empty name, and against a
`Partial_Test.go` source with `packageName => "srcpkg"` it is named
`srcpkg_test`: lines 186-190 and 213-217 test the requesting annotation's
parameter and then read the matched annotation's. -/
theorem C9_package_name_read_from_target :
    anPkgCustom.Params.get? "packageName" = some "custom" ∧
    srcPartial.Params.get? "packageName" = none ∧
    handleGeneration sampleWorld "out" anPkgCustom declPkg pkgPartial
        (Binding.packageBinding anPkgCustom declPkg pkgPartial) =
      ([{ FileName := "makefor_impl_gen.go", DontOverride := true,
          Writer := Writer.Fmtwriter (Writer.Block (Writer.Package (Writer.Name "")
            (Writer.Block (Writer.SourceTextWith "beta" (funcMapOf anPkgCustom srcPartial)
              (Binding.packageBinding anPkgCustom declPkg pkgPartial))))) true true }],
       none) ∧
    srcPartialTest.Params.get? "packageName" = some "srcpkg" ∧
    (handleGeneration sampleWorld "out" anPkgCustom declPkg pkgPartialTest
        (Binding.packageBinding anPkgCustom declPkg pkgPartialTest)).1.map
      (fun d => d.Writer.packageName) = [some "srcpkg_test"] := by
  decide

/-- C10 (counterexample): a requesting annotation whose `id` is present and empty
is not rejected: against a package whose source annotation carries no `id` the
call reports no error and returns a directive rendering that annotation's
template, the empty id having served as the join key. -/
theorem C10_empty_id_accepted :
    anBlankId.Params.get? "id" = some "" ∧
    handleGeneration sampleWorld "out" anBlankId declPkg pkgNoId
        (Binding.packageBinding anBlankId declPkg pkgNoId) =
      ([{ FileName := "makefor_impl_gen.go", DontOverride := true,
          Writer := Writer.Block (Writer.SourceTextWith "gamma" (funcMapOf anBlankId srcNoId)
            (Binding.packageBinding anBlankId declPkg pkgNoId)) }], none) := by
  decide

/-- C10 (amended): a requesting annotation whose `id` parameter is absent makes
`handleGeneration` fail with `MissingTemplateID` and return no directives; an
`id` that is present and empty is not rejected but used as the join key, the call
going on, when the package has sources, from the annotation the search loop
selects for the empty id. -/
theorem C10_absent_id_rejected (w : World) (toDir : String) (an : AnnotationDeclaration)
    (pkgDeclr : PackageDeclaration) (pkg : Package) (binding : Binding) :
    (an.Params.get? "id" = none →
      handleGeneration w toDir an pkgDeclr pkg binding = ([], some MissingTemplateID)) ∧
    (an.Params.get? "id" = some "" → pkg.AnnotationsFor "source" ≠ [] →
      handleGeneration w toDir an pkgDeclr pkg binding =
        generateFrom w toDir an pkgDeclr pkg binding
          (rangeTarget "" AnnotationDeclaration.zero (pkg.AnnotationsFor "source"))) := by
  constructor
  · intro hid
    simp [handleGeneration, hid]
  · intro hid hne
    exact handleGeneration_of_id w toDir an pkgDeclr pkg binding "" hid hne

/-- Witness of C10 (amended): `anNoId` is rejected, `anBlankId` goes on from the
source annotation selected for the empty id. -/
theorem C10_absent_id_rejected_witness :
    handleGeneration sampleWorld "out" anNoId declPkg pkgNoId
        (Binding.packageBinding anNoId declPkg pkgNoId) = ([], some MissingTemplateID) ∧
    handleGeneration sampleWorld "out" anBlankId declPkg pkgNoId
        (Binding.packageBinding anBlankId declPkg pkgNoId) =
      generateFrom sampleWorld "out" anBlankId declPkg pkgNoId
        (Binding.packageBinding anBlankId declPkg pkgNoId)
        (rangeTarget "" AnnotationDeclaration.zero (pkgNoId.AnnotationsFor "source")) :=
  ⟨(C10_absent_id_rejected sampleWorld "out" anNoId declPkg pkgNoId
      (Binding.packageBinding anNoId declPkg pkgNoId)).1 (by decide),
   (C10_absent_id_rejected sampleWorld "out" anBlankId declPkg pkgNoId
      (Binding.packageBinding anBlankId declPkg pkgNoId)).2 (by decide) (by decide)⟩

end Templa
